import Mathlib

/-!
# Verification of the AI-powered interview platform backend

A shallow embedding, in Lean 4, of the server logic in `src/app.py` of the
AI-Powered_Interview_Platform repository, together with proofs settling the
frozen claims about it.

Modelling conventions, used throughout:

* Python strings are Lean `String`s; whitespace and case handling follow the
  ASCII subset (every string appearing in the claims is ASCII).
* Python dictionaries are association lists `List (String × _)`; assignment
  `d[k] = v` replaces the value in place when the key exists (preserving its
  position) and appends the pair otherwise, exactly like CPython.
* JSON values decoded by `json.loads` are the inductive `JVal`. JSON numbers
  are modelled as integers: every number occurring in the claims is an
  integer, and the floating-point arithmetic of the scoring path agrees with
  exact arithmetic on such inputs.
* External effectful calls (the Gemini model, PyPDF2, python-docx) are
  modelled as oracle parameters describing the outcome of each call; the code
  under verification is the logic around them.
* Each request handler returns, besides the new session store and the HTTP
  outcome, the number of AI-model invocations it performed, so that claims of
  the form "no AI call is made" are expressible.
-/

/-! ## Python string primitives -/

/-- The characters stripped by Python's `str.strip()` (ASCII subset). -/
def pyIsSpace (c : Char) : Bool :=
  c == ' ' || c == '\t' || c == '\n' || c == '\x0d' || c == '\x0b' || c == '\x0c'

/-- Strip `pyIsSpace` characters from both ends of a character list. -/
def stripChars (l : List Char) : List Char :=
  ((l.dropWhile pyIsSpace).reverse.dropWhile pyIsSpace).reverse

/-- Python `str.strip()` with no argument (ASCII whitespace). -/
def pyStrip (s : String) : String :=
  String.mk (stripChars s.data)

/-- Python `str.split(sep)` for a one-character separator `sep`: keeps empty
pieces, so splitting the empty string gives `[[]]`, like CPython. -/
def pySplitChar (sep : Char) : List Char → List (List Char)
  | [] => [[]]
  | c :: cs =>
    let r := pySplitChar sep cs
    if c == sep then [] :: r
    else
      match r with
      | h :: t => (c :: h) :: t
      | [] => [[c]]

/-- Digit-string to number; `none` when empty or containing a non-digit. -/
def natDigitsAux : List Char → Nat → Option Nat
  | [], acc => some acc
  | c :: cs, acc =>
    if c.isDigit then natDigitsAux cs (acc * 10 + (c.toNat - '0'.toNat)) else none

/-- Python `int(s)` on a character list: surrounding whitespace is allowed, an
optional sign, then a nonempty run of ASCII digits (the underscore grouping of
CPython is not modelled; no claim uses it). `none` models `ValueError`. -/
def pyIntChars : List Char → Option Int
  | l =>
    match stripChars l with
    | [] => none
    | '+' :: ds => (natDigitsAux ds 0).bind (fun n => if ds = [] then none else some (Int.ofNat n))
    | '-' :: ds => (natDigitsAux ds 0).bind (fun n => if ds = [] then none else some (-(Int.ofNat n)))
    | ds => (natDigitsAux ds 0).map Int.ofNat

/-- Case-insensitive character comparison, as under `re.IGNORECASE`. -/
def ciEq (p c : Char) : Bool :=
  p.toLower == c.toLower

/-- Case-insensitive prefix test on character lists. -/
def isPrefixCIb : List Char → List Char → Bool
  | [], _ => true
  | _ :: _, [] => false
  | p :: ps, t :: ts => ciEq p t && isPrefixCIb ps ts

/-- Index of the first case-insensitive occurrence of `pat` in a text. -/
def findSubCI (pat : List Char) : List Char → Option Nat
  | [] => if isPrefixCIb pat [] then some 0 else none
  | c :: ts =>
    if isPrefixCIb pat (c :: ts) then some 0
    else (findSubCI pat ts).map (· + 1)

/-- Index of the first exact occurrence of `pat` in a text. -/
def findSubEx (pat : List Char) : List Char → Option Nat
  | [] => if List.isPrefixOf pat [] then some 0 else none
  | c :: ts =>
    if List.isPrefixOf pat (c :: ts) then some 0
    else (findSubEx pat ts).map (· + 1)

/-- Lower-case a string, as Python `str.lower()` on ASCII. -/
def lowerStr (s : String) : String :=
  String.mk (s.data.map Char.toLower)

/-- Python `str.endswith(pat)`. -/
def strEndsWith (s pat : String) : Bool :=
  List.isPrefixOf pat.data.reverse s.data.reverse

/-- Concatenation of a list of strings (Python `"".join`-style fold). -/
def concatStrings : List String → String
  | [] => ""
  | s :: rest => s ++ concatStrings rest

/-! ## JSON values and Python dictionaries -/

/-- A decoded JSON value (`json.loads` result). Numbers are integers, see the
module comment. -/
inductive JVal where
  | jnull
  | jbool (b : Bool)
  | jnum (n : Int)
  | jstr (s : String)
  | jarr (elems : List JVal)
  | jobj (fields : List (String × JVal))

mutual

/-- Boolean equality on JSON values (structural, so that it reduces). -/
def JVal.beq : JVal → JVal → Bool
  | .jnull, .jnull => true
  | .jbool a, .jbool b => a == b
  | .jnum a, .jnum b => a == b
  | .jstr a, .jstr b => a == b
  | .jarr as, .jarr bs => JVal.beqArr as bs
  | .jobj as, .jobj bs => JVal.beqObj as bs
  | _, _ => false

/-- Boolean equality on JSON arrays. -/
def JVal.beqArr : List JVal → List JVal → Bool
  | [], [] => true
  | a :: as, b :: bs => JVal.beq a b && JVal.beqArr as bs
  | _, _ => false

/-- Boolean equality on JSON object field lists. -/
def JVal.beqObj : List (String × JVal) → List (String × JVal) → Bool
  | [], [] => true
  | (k, a) :: as, (l, b) :: bs => k == l && JVal.beq a b && JVal.beqObj as bs
  | _, _ => false

end

mutual

theorem JVal.eq_of_beq : ∀ {a b : JVal}, JVal.beq a b = true → a = b
  | .jnull, .jnull, _ => rfl
  | .jbool _, .jbool _, h => by simp [JVal.beq] at h; simp [h]
  | .jnum _, .jnum _, h => by simp [JVal.beq] at h; simp [h]
  | .jstr _, .jstr _, h => by simp [JVal.beq] at h; simp [h]
  | .jarr as, .jarr bs, h => by
      simp only [JVal.beq] at h
      rw [JVal.eqArr_of_beq h]
  | .jobj as, .jobj bs, h => by
      simp only [JVal.beq] at h
      rw [JVal.eqObj_of_beq h]
  | .jnull, .jbool _, h => by simp [JVal.beq] at h
  | .jnull, .jnum _, h => by simp [JVal.beq] at h
  | .jnull, .jstr _, h => by simp [JVal.beq] at h
  | .jnull, .jarr _, h => by simp [JVal.beq] at h
  | .jnull, .jobj _, h => by simp [JVal.beq] at h
  | .jbool _, .jnull, h => by simp [JVal.beq] at h
  | .jbool _, .jnum _, h => by simp [JVal.beq] at h
  | .jbool _, .jstr _, h => by simp [JVal.beq] at h
  | .jbool _, .jarr _, h => by simp [JVal.beq] at h
  | .jbool _, .jobj _, h => by simp [JVal.beq] at h
  | .jnum _, .jnull, h => by simp [JVal.beq] at h
  | .jnum _, .jbool _, h => by simp [JVal.beq] at h
  | .jnum _, .jstr _, h => by simp [JVal.beq] at h
  | .jnum _, .jarr _, h => by simp [JVal.beq] at h
  | .jnum _, .jobj _, h => by simp [JVal.beq] at h
  | .jstr _, .jnull, h => by simp [JVal.beq] at h
  | .jstr _, .jbool _, h => by simp [JVal.beq] at h
  | .jstr _, .jnum _, h => by simp [JVal.beq] at h
  | .jstr _, .jarr _, h => by simp [JVal.beq] at h
  | .jstr _, .jobj _, h => by simp [JVal.beq] at h
  | .jarr _, .jnull, h => by simp [JVal.beq] at h
  | .jarr _, .jbool _, h => by simp [JVal.beq] at h
  | .jarr _, .jnum _, h => by simp [JVal.beq] at h
  | .jarr _, .jstr _, h => by simp [JVal.beq] at h
  | .jarr _, .jobj _, h => by simp [JVal.beq] at h
  | .jobj _, .jnull, h => by simp [JVal.beq] at h
  | .jobj _, .jbool _, h => by simp [JVal.beq] at h
  | .jobj _, .jnum _, h => by simp [JVal.beq] at h
  | .jobj _, .jstr _, h => by simp [JVal.beq] at h
  | .jobj _, .jarr _, h => by simp [JVal.beq] at h

theorem JVal.eqArr_of_beq : ∀ {as bs : List JVal}, JVal.beqArr as bs = true → as = bs
  | [], [], _ => rfl
  | a :: as, b :: bs, h => by
      simp only [JVal.beqArr, Bool.and_eq_true] at h
      rw [JVal.eq_of_beq h.1, JVal.eqArr_of_beq h.2]
  | [], _ :: _, h => by simp [JVal.beqArr] at h
  | _ :: _, [], h => by simp [JVal.beqArr] at h

theorem JVal.eqObj_of_beq :
    ∀ {as bs : List (String × JVal)}, JVal.beqObj as bs = true → as = bs
  | [], [], _ => rfl
  | (k, a) :: as, (l, b) :: bs, h => by
      simp only [JVal.beqObj, Bool.and_eq_true, beq_iff_eq] at h
      rw [h.1.1, JVal.eq_of_beq h.1.2, JVal.eqObj_of_beq h.2]
  | [], _ :: _, h => by simp [JVal.beqObj] at h
  | _ :: _, [], h => by simp [JVal.beqObj] at h

end

mutual

theorem JVal.beq_refl : ∀ a : JVal, JVal.beq a a = true
  | .jnull => rfl
  | .jbool _ => by simp [JVal.beq]
  | .jnum _ => by simp [JVal.beq]
  | .jstr _ => by simp [JVal.beq]
  | .jarr as => by simp only [JVal.beq]; exact JVal.beqArr_refl as
  | .jobj as => by simp only [JVal.beq]; exact JVal.beqObj_refl as

theorem JVal.beqArr_refl : ∀ as : List JVal, JVal.beqArr as as = true
  | [] => rfl
  | a :: as => by
      simp only [JVal.beqArr, Bool.and_eq_true]
      exact ⟨JVal.beq_refl a, JVal.beqArr_refl as⟩

theorem JVal.beqObj_refl : ∀ as : List (String × JVal), JVal.beqObj as as = true
  | [] => rfl
  | (k, a) :: as => by
      simp only [JVal.beqObj, Bool.and_eq_true, beq_self_eq_true, true_and]
      exact ⟨JVal.beq_refl a, JVal.beqObj_refl as⟩

end

instance : DecidableEq JVal := fun a b =>
  if h : JVal.beq a b = true then isTrue (JVal.eq_of_beq h)
  else isFalse (fun hh => h (hh ▸ JVal.beq_refl a))

/-- A Python dictionary with string keys and JSON values. -/
abbrev PyDict := List (String × JVal)

/-- CPython dictionary assignment `d[k] = v`: replace in place when the key
exists, append otherwise. -/
def dictSet {α : Type} (d : List (String × α)) (k : String) (v : α) :
    List (String × α) :=
  match d with
  | [] => [(k, v)]
  | (k₁, v₁) :: rest => if k₁ = k then (k, v) :: rest else (k₁, v₁) :: dictSet rest k v

theorem lookup_dictSet {α : Type} (d : List (String × α)) (k k' : String) (v : α) :
    List.lookup k' (dictSet d k v) = if k' = k then some v else List.lookup k' d := by
  induction d with
  | nil =>
    by_cases h : k' = k
    · simp [dictSet, List.lookup, h]
    · have hb : (k' == k) = false := beq_eq_false_iff_ne.mpr h
      simp [dictSet, List.lookup, hb, h]
  | cons p rest ih =>
    obtain ⟨k₁, v₁⟩ := p
    by_cases h1 : k₁ = k
    · subst h1
      by_cases h2 : k' = k₁
      · simp [dictSet, List.lookup, h2]
      · have hb : (k' == k₁) = false := beq_eq_false_iff_ne.mpr h2
        simp [dictSet, List.lookup, hb, h2]
    · by_cases h2 : k' = k₁
      · subst h2
        simp [dictSet, List.lookup, h1]
      · have hb : (k' == k₁) = false := beq_eq_false_iff_ne.mpr h2
        simp [dictSet, List.lookup, h1, hb, ih]

theorem lookup_dictSet_self {α : Type} (d : List (String × α)) (k : String) (v : α) :
    List.lookup k (dictSet d k v) = some v := by
  simp [lookup_dictSet]

/-! ## AI client: `generate_content_with_gemini` (src/app.py lines 121-151)

The external call `model.generate_content(...)` is modelled by an oracle
`call : Nat → CallResult` giving the outcome of the i-th attempt, and the
`json.loads` validity check by an oracle predicate `jsonValid`.  The function
returns the pair of the Python return value and the number of attempts that
were actually made (the number of `generate_content` calls). -/

/-- Outcome of one `model.generate_content` call: the call raised, or it
returned a response whose `text` attribute is absent/None (`none`) or a
string.  Accessing a missing/blocked `text` raising inside `getattr` is also
covered by `raises`. -/
inductive CallResult where
  | raises
  | returns (text : Option String)
deriving DecidableEq

/-- The retry loop of `generate_content_with_gemini`, starting at a given
attempt counter, as in the source: `while attempt < retries` with the
attempt counter incremented both on an empty response and in the
`except` branch (which returns early once `attempt >= retries`). -/
def genAttempts (jsonValid : String → Bool) (call : Nat → CallResult)
    (retries : Nat) (attempt : Nat) : Option String × Nat :=
  if attempt < retries then
    match call attempt with
    | .raises =>
      -- except branch: attempt += 1; early return None when exhausted
      if attempt + 1 ≥ retries then (none, attempt + 1)
      else genAttempts jsonValid call retries (attempt + 1)
    | .returns none =>
      -- falsy response text: attempt += 1 and re-test the loop condition
      if attempt + 1 < retries then genAttempts jsonValid call retries (attempt + 1)
      else (none, attempt + 1)
    | .returns (some t) =>
      if t ≠ "" then
        if jsonValid t then (some t, attempt + 1)
        else
          -- json.loads raised ValueError, caught by the same except branch
          if attempt + 1 ≥ retries then (none, attempt + 1)
          else genAttempts jsonValid call retries (attempt + 1)
      else
        if attempt + 1 < retries then genAttempts jsonValid call retries (attempt + 1)
        else (none, attempt + 1)
  else (none, attempt)
termination_by retries - attempt
decreasing_by all_goals omega

/-- `generate_content_with_gemini(model, prompt, retries)`: the loop starting
at attempt 0.  The model never raises: every exception of an attempt is
consumed inside the loop. -/
def generate_content_with_gemini (jsonValid : String → Bool)
    (call : Nat → CallResult) (retries : Nat) : Option String × Nat :=
  genAttempts jsonValid call retries 0

/-- An attempt succeeds when the call returns a non-empty text payload that
the JSON validity oracle accepts. -/
def attemptOk (jsonValid : String → Bool) (call : Nat → CallResult) (i : Nat) : Bool :=
  match call i with
  | .returns (some t) => (t != "") && jsonValid t
  | _ => false

/-! ## `extract_json_from_gemini_response` (src/app.py lines 153-159)

The source runs `re.search(r"` ```json\s*(.*?)\s*``` `", text, re.DOTALL |
re.IGNORECASE)` and returns `m.group(1).strip()` on a match, `text.strip()`
otherwise, and `None` for falsy input.

The regex search is equivalent to the following direct procedure, proved by
unfolding the backtracking semantics of the pattern: a match exists iff there
is a case-insensitive occurrence of the 7-character opener followed
(anywhere later) by the 3-backtick closer.  Since the leading `\s*` is tried
greedily and the whitespace run cannot contain a backtick, the match always
uses the leftmost opener; the lazy group then ends at the earliest position
from which the closer is reachable through whitespace, i.e. the matched
closer is the first occurrence of three backticks after the opener, and
`group(1)` is the text strictly between them minus surrounding whitespace.
Because the caller strips `group(1)` again, the returned value is exactly
the stripped text between the leftmost opener and the next closer. -/
def extract_json_from_gemini_response (text : String) : Option String :=
  if text = "" then none
  else
    let cs := text.data
    match findSubCI "```json".data cs with
    | some i =>
      match findSubEx "```".data (cs.drop (i + 7)) with
      | some j => some (String.mk (stripChars ((cs.drop (i + 7)).take j)))
      | none => some (pyStrip text)
    | none => some (pyStrip text)

/-! ## Text extraction (src/app.py lines 89-119) -/

/-- Outcome of `page.extract_text()` for one PDF page: a text (possibly
empty), a falsy/None result, or an exception while obtaining or reading the
page. -/
inductive PageResult where
  | yields (text : String)
  | noText
  | raises
deriving DecidableEq

/-- The page loop of `extract_text_from_pdf`: `text += page.extract_text() or
""`.  A page that raises aborts the loop (the exception is caught by the
surrounding `except`, which falls through to `return text.strip()` with the
text accumulated so far). -/
def pdfPagesLoop : List PageResult → String → String
  | [], acc => acc
  | .yields s :: ps, acc => pdfPagesLoop ps (acc ++ s)
  | .noText :: ps, acc => pdfPagesLoop ps (acc ++ "")
  | .raises :: _, acc => acc

/-- `extract_text_from_pdf(file_obj)`.  `none` models `PdfReader` itself
raising (the `except` then returns the still-empty accumulator, stripped). -/
def extract_text_from_pdf (doc : Option (List PageResult)) : String :=
  pyStrip (match doc with
    | none => ""
    | some pages => pdfPagesLoop pages "")

/-- `extract_text_from_docx(file_obj)`: keeps the non-blank paragraph texts,
joins them with newlines and strips; returns `""` when python-docx is
unavailable or when opening the document raises. -/
def extract_text_from_docx (docxAvailable : Bool) (doc : Option (List String)) : String :=
  if !docxAvailable then ""
  else
    match doc with
    | none => ""
    | some paras =>
      pyStrip (String.intercalate "\n"
        (paras.filter (fun p => (p != "") && (pyStrip p != ""))))

/-- An uploaded file: its declared filename plus the oracle outcomes of the
two extraction libraries on its contents (only the one matching the
extension is ever consulted, as in the source). -/
structure UploadedFile where
  filename : String
  pdfPages : Option (List PageResult)
  docxParas : Option (List String)
deriving DecidableEq

/-- `extract_text_smart(uploaded_file)`: dispatch on the lower-cased filename
extension; `Except.error` models the `ValueError` raised for unsupported
types. -/
def extract_text_smart (f : UploadedFile) (docxAvailable : Bool) : Except String String :=
  let fn := lowerStr f.filename
  if strEndsWith fn ".pdf" then .ok (extract_text_from_pdf f.pdfPages)
  else if strEndsWith fn ".docx" then .ok (extract_text_from_docx docxAvailable f.docxParas)
  else .error "Unsupported file type. Please upload a PDF or DOCX."

/-! ## Session store (src/app.py lines 61-72) -/

/-- One evaluated answer, the dict literal appended at src/app.py lines
288-292.  `question` and `tags` carry `question_obj.get(...)` results;
`duration` is `data.get("duration")` (modelled as an optional string, the
only shape the claims use). -/
structure ResponseRec where
  question_id : String
  question : Option JVal
  tags : JVal
  response : String
  duration : Option String
  evaluation : PyDict
deriving DecidableEq

/-- A session record.  The creation literal at src/app.py lines 65-71 has
exactly five keys; the `interview_assessment` key is NOT among them and is
only ever added by the assignment in `get_assessment` (line 350), always to
a dict, and is never read.  Key absence is therefore in bijection with
`none` in this field, which is how it is modelled here; the transcription
`newSessionDict` below records the literal's actual keys. -/
structure Session where
  candidate_profile : Option PyDict
  interview_questions : List PyDict
  interview_responses : List ResponseRec
  interview_start_time : Option String
  interview_end_time : Option String
  interview_assessment : Option PyDict
deriving DecidableEq

/-- The record a fresh session starts with (all initialized fields at their
empty/None defaults; no assessment key, see `Session`). -/
def defaultSession : Session :=
  { candidate_profile := none
    interview_questions := []
    interview_responses := []
    interview_start_time := none
    interview_end_time := none
    interview_assessment := none }

/-- Initialization values appearing in the session-creation dict literal. -/
inductive InitVal where
  | pyNone
  | emptyList
deriving DecidableEq

/-- Direct transcription of the dict literal at src/app.py lines 65-71: the
keys the freshly created session dictionary actually contains, with their
initial values. -/
def newSessionDict : List (String × InitVal) :=
  [("candidate_profile", .pyNone),
   ("interview_questions", .emptyList),
   ("interview_responses", .emptyList),
   ("interview_start_time", .pyNone),
   ("interview_end_time", .pyNone)]

/-- The global `sessions` dictionary. -/
abbrev Store := List (String × Session)

/-- `get_or_create_session(session_id)`: returns the existing record, or
inserts and returns a fresh one. -/
def get_or_create_session (session_id : String) (store : Store) : Session × Store :=
  match List.lookup session_id store with
  | some s => (s, store)
  | none => (defaultSession, dictSet store session_id defaultSession)

/-! ## Request handlers (src/app.py lines 168-355)

Each handler takes the store, the request data, and an oracle for the body of
its AI step, and returns the new store, the HTTP outcome, and the number of
`generate_content_with_gemini` invocations made.  The AI oracle collapses
`generate_content_with_gemini` followed by `extract_json_from_gemini_response`
and `json.loads`:

* `fail`: the client returned `None` (the handler's `if not ai_text` branch);
* `parseError`: the client returned text but the cleaned fragment was empty
  or `json.loads` raised on it, or the decoded value did not have the shape
  the handler then accesses (e.g. a non-dict profile hitting `.get`) — all of
  which the handler's catch-all `except` turns into a 500;
* `ok v`: the decoded value, with the shape the handler accesses.

Prompt strings are built from request-scoped data and passed only to the
model; no claim depends on their contents, so they are not reconstructed. -/

/-- Outcome of a handler's AI-and-parse step. -/
inductive AiParsed (α : Type) where
  | fail
  | parseError
  | ok (value : α)
deriving DecidableEq

/-- An HTTP outcome: a response with a status code and the `error` field of
the JSON body (`none` for success responses), or an exception escaping the
handler (which the framework turns into a generic 500). -/
inductive HttpResp where
  | resp (status : Nat) (error : Option String)
  | crashed
deriving DecidableEq

/-- Status code of an HTTP outcome. -/
def HttpResp.status : HttpResp → Nat
  | .resp s _ => s
  | .crashed => 500

/-- The `key_skills` normalization of `upload_resume` (src/app.py lines
210-214): a string splits on commas into stripped non-blank pieces, a list
is left alone (no assignment is executed), anything else is replaced by the
empty list. -/
def normalizeProfileSkills (profile : PyDict) : PyDict :=
  match List.lookup "key_skills" profile with
  | some (.jstr s) =>
    dictSet profile "key_skills"
      (.jarr ((((pySplitChar ',' s.data).map (fun p => String.mk (stripChars p))).filter
        (fun p => p != "")).map .jstr))
  | some (.jarr _) => profile
  | _ => dictSet profile "key_skills" (.jarr [])

/-- `POST /upload_resume` (src/app.py lines 168-219).  `headerSid` is the
`X-User-Session-Id` header, `generatedSid` the `str(uuid.uuid4())` fallback;
`resume` is `request.files["resume"]` (`none` when the field is absent). -/
def upload_resume (store : Store) (headerSid : Option String) (generatedSid : String)
    (resume : Option UploadedFile) (docxAvailable : Bool) (ai : AiParsed PyDict) :
    Store × HttpResp × Nat :=
  let session_id := headerSid.getD generatedSid
  let sc := get_or_create_session session_id store
  let session := sc.1
  let store₁ := sc.2
  match resume with
  | none => (store₁, .resp 400 (some "No resume file provided"), 0)
  | some f =>
    if f.filename = "" then (store₁, .resp 400 (some "No selected file"), 0)
    else
      match extract_text_smart f docxAvailable with
      | .error msg => (store₁, .resp 400 (some msg), 0)
      | .ok resume_content =>
        if resume_content = "" then
          (store₁, .resp 400
            (some "Could not extract text. Ensure the PDF/DOCX contains selectable text."), 0)
        else
          match ai with
          | .fail =>
            (store₁, .resp 500 (some "AI failed to parse resume or returned empty response."), 1)
          | .parseError => (store₁, .resp 500 (some "An unexpected error occurred"), 1)
          | .ok profile =>
            let profile₁ := normalizeProfileSkills profile
            (dictSet store₁ session_id { session with candidate_profile := some profile₁ },
             .resp 200 none, 1)

/-- `POST /setup_interview` (src/app.py lines 221-257).  The
`candidate_profile.position` mutation happens on the stored dict before the
AI call, so it persists on the 500 paths. -/
def setup_interview (store : Store) (headerSid : Option String)
    (position_role : Option String) (ai : AiParsed (List PyDict)) (now : String) :
    Store × HttpResp × Nat :=
  match headerSid with
  | none => (store, .resp 400 (some "Invalid or missing session ID"), 0)
  | some session_id =>
    if session_id = "" then (store, .resp 400 (some "Invalid or missing session ID"), 0)
    else
      match List.lookup session_id store with
      | none => (store, .resp 400 (some "Invalid or missing session ID"), 0)
      | some session =>
        match position_role, session.candidate_profile with
        | some role, some profile =>
          if role = "" ∨ profile = [] then
            (store, .resp 400 (some "Position role and candidate profile are required"), 0)
          else
            let profile₁ := dictSet profile "position" (.jstr role)
            let session₁ := { session with candidate_profile := some profile₁ }
            let store₁ := dictSet store session_id session₁
            match ai with
            | .fail => (store₁, .resp 500 (some "AI failed to generate questions."), 1)
            | .parseError => (store₁, .resp 500 (some "An unexpected error occurred"), 1)
            | .ok questions =>
              let session₂ := { session₁ with
                interview_questions := questions
                interview_responses := []
                interview_start_time := some now }
              (dictSet store₁ session_id session₂, .resp 200 none, 1)
        | _, _ =>
          (store, .resp 400 (some "Position role and candidate profile are required"), 0)

/-- The generator predicate of `submit_answer`'s question search:
`q.get("id") == question_id` with a string `question_id`. -/
def questionMatches (question_id : String) (q : PyDict) : Bool :=
  match List.lookup "id" q with
  | some (.jstr s) => s == question_id
  | _ => false

/-- `evaluation.get(key, 0)` followed by use as a number: `some` the numeric
value (Python `bool` is an `int` subtype, so JSON booleans count as 0/1);
`none` models the `TypeError` a non-numeric value raises in the sum, which
the handler's catch-all `except` turns into a 500. -/
def subScore (d : PyDict) (k : String) : Option Int :=
  match List.lookup k d with
  | none => some 0
  | some (.jnum n) => some n
  | some (.jbool b) => some (if b then 1 else 0)
  | some _ => none

/-- `POST /submit_answer` (src/app.py lines 259-296). -/
def submit_answer (store : Store) (headerSid : Option String)
    (question_id response_text duration : Option String) (ai : AiParsed PyDict) :
    Store × HttpResp × Nat :=
  match headerSid with
  | none => (store, .resp 400 (some "Invalid or missing session ID"), 0)
  | some session_id =>
    if session_id = "" then (store, .resp 400 (some "Invalid or missing session ID"), 0)
    else
      match List.lookup session_id store with
      | none => (store, .resp 400 (some "Invalid or missing session ID"), 0)
      | some session =>
        match question_id, response_text with
        | some qid, some rtext =>
          if qid = "" ∨ rtext = "" then
            (store, .resp 400 (some "Question ID and response text are required"), 0)
          else
            match session.interview_questions.find? (questionMatches qid) with
            | none => (store, .resp 404 (some "Question not found"), 0)
            | some question_obj =>
              match ai with
              | .fail => (store, .resp 500 (some "AI failed to evaluate response."), 1)
              | .parseError => (store, .resp 500 (some "An unexpected error occurred"), 1)
              | .ok evaluation =>
                match subScore evaluation "technicalScore",
                      subScore evaluation "communicationScore",
                      subScore evaluation "relevanceScore" with
                | some t, some c, some r =>
                  -- overall_q_score = (t + c + r) / 3; evaluation["score"] =
                  -- round(overall_q_score).  Exact arithmetic: the mean of
                  -- three integers is never a half-integer, so rounding to
                  -- nearest is unambiguous and agrees with CPython's
                  -- float-division-plus-banker's-round on these inputs.
                  let score : Int := round (((t : ℚ) + (c : ℚ) + (r : ℚ)) / 3)
                  let evaluation₁ := dictSet evaluation "score" (.jnum score)
                  let newResponse : ResponseRec :=
                    { question_id := qid
                      question := List.lookup "question" question_obj
                      tags := (List.lookup "tags" question_obj).getD (.jarr [])
                      response := rtext
                      duration := duration
                      evaluation := evaluation₁ }
                  let session₁ := { session with
                    interview_responses := session.interview_responses ++ [newResponse] }
                  (dictSet store session_id session₁, .resp 200 none, 1)
                | _, _, _ => (store, .resp 500 (some "An unexpected error occurred"), 1)
        | _, _ => (store, .resp 400 (some "Question ID and response text are required"), 0)

/-- The f-string summary of one response (src/app.py lines 312-316) indexes
`r["evaluation"]` at these four keys without a default; a missing key raises
`KeyError` outside any `try` and crashes the handler. -/
def summaryOk (r : ResponseRec) : Bool :=
  (List.lookup "technicalScore" r.evaluation).isSome &&
  (List.lookup "communicationScore" r.evaluation).isSome &&
  (List.lookup "relevanceScore" r.evaluation).isSome &&
  (List.lookup "feedback" r.evaluation).isSome

/-- Seconds contributed by one response's `duration` field (src/app.py lines
317-320): `mm, ss = map(int, (r.get("duration") or "0:0").split(":"))`,
with every exception silently skipped (contributing zero). -/
def durContribution (duration : Option String) : Int :=
  let s₀ := duration.getD "0:0"
  let s₁ := if s₀ = "" then "0:0" else s₀
  match pySplitChar ':' s₁.data with
  | [a, b] =>
    match pyIntChars a, pyIntChars b with
    | some mm, some ss => mm * 60 + ss
    | _, _ => 0
  | _ => 0

/-- `total_duration_seconds` over the session's responses. -/
def totalDurationSeconds (rs : List ResponseRec) : Int :=
  rs.foldl (fun acc r => acc + durContribution r.duration) 0

/-- `f"{total_minutes}m {total_seconds}s"` with Python floor division and
modulo (src/app.py lines 322-324). -/
def fmtDuration (n : Int) : String :=
  toString (Int.ediv n 60) ++ "m " ++ toString (Int.emod n 60) ++ "s"

/-- `GET /get_assessment` (src/app.py lines 298-355).  `interview_end_time`
is set before the summary loop and the AI call, so that mutation persists on
every later outcome, including the crash on a malformed evaluation. -/
def get_assessment (store : Store) (headerSid : Option String) (ai : AiParsed PyDict)
    (now : String) : Store × HttpResp × Nat :=
  match headerSid with
  | none => (store, .resp 400 (some "Invalid or missing session ID"), 0)
  | some session_id =>
    if session_id = "" then (store, .resp 400 (some "Invalid or missing session ID"), 0)
    else
      match List.lookup session_id store with
      | none => (store, .resp 400 (some "Invalid or missing session ID"), 0)
      | some session =>
        if session.interview_responses = [] then
          (store, .resp 400 (some "No interview responses to assess"), 0)
        else
          let session₁ := { session with interview_end_time := some now }
          let store₁ := dictSet store session_id session₁
          if ¬ (session.interview_responses.all summaryOk) then
            (store₁, .crashed, 0)
          else
            let durationStr := fmtDuration (totalDurationSeconds session.interview_responses)
            match ai with
            | .fail => (store₁, .resp 500 (some "AI failed to generate assessment."), 1)
            | .parseError => (store₁, .resp 500 (some "An unexpected error occurred"), 1)
            | .ok assessment =>
              let assessment₁ := dictSet assessment "interviewDuration" (.jstr durationStr)
              let session₂ := { session₁ with interview_assessment := some assessment₁ }
              (dictSet store₁ session_id session₂, .resp 200 none, 1)

/-! ## Properties of the retry loop -/

theorem genAttempts_exit (jv : String → Bool) (call : Nat → CallResult)
    (retries attempt : Nat) (hle : retries ≤ attempt) :
    genAttempts jv call retries attempt = (none, attempt) := by
  rw [genAttempts]
  simp [Nat.not_lt.mpr hle]

theorem genAttempts_fail (jv : String → Bool) (call : Nat → CallResult)
    (retries attempt : Nat) (h : attempt < retries)
    (hf : attemptOk jv call attempt = false) :
    genAttempts jv call retries attempt = genAttempts jv call retries (attempt + 1) := by
  conv_lhs => rw [genAttempts]
  unfold attemptOk at hf
  cases hcall : call attempt with
  | raises =>
    simp only [if_pos h]
    by_cases h2 : retries ≤ attempt + 1
    · rw [if_pos h2, genAttempts_exit jv call retries (attempt + 1) h2]
    · rw [if_neg h2]
  | returns t =>
    cases t with
    | none =>
      simp only [if_pos h]
      by_cases h2 : attempt + 1 < retries
      · rw [if_pos h2]
      · rw [if_neg h2, genAttempts_exit jv call retries (attempt + 1) (Nat.not_lt.mp h2)]
    | some s =>
      simp only [if_pos h]
      by_cases hs : s = ""
      · subst hs
        simp only [ne_eq, not_true_eq_false, if_false]
        by_cases h2 : attempt + 1 < retries
        · rw [if_pos h2]
        · rw [if_neg h2, genAttempts_exit jv call retries (attempt + 1) (Nat.not_lt.mp h2)]
      · rw [hcall] at hf
        have hf' : ((s != "") && jv s) = false := hf
        have hjv : jv s = false := by
          cases hj : jv s
          · rfl
          · exfalso
            rw [hj] at hf'
            simp [bne_iff_ne, hs] at hf'
        simp only [ne_eq, hs, not_false_eq_true, if_true, hjv]
        by_cases h2 : retries ≤ attempt + 1
        · simp only [ge_iff_le, h2, if_true, Bool.false_eq_true, if_false]
          rw [genAttempts_exit jv call retries (attempt + 1) h2]
        · simp only [ge_iff_le, h2, if_false, Bool.false_eq_true]

theorem genAttempts_success (jv : String → Bool) (call : Nat → CallResult)
    (retries attempt : Nat) (t : String) (h : attempt < retries)
    (hcall : call attempt = .returns (some t)) (ht : t ≠ "") (hjv : jv t = true) :
    genAttempts jv call retries attempt = (some t, attempt + 1) := by
  conv_lhs => rw [genAttempts]
  rw [hcall]
  simp [h, ht, hjv]

theorem genAttempts_skip (jv : String → Bool) (call : Nat → CallResult)
    (retries k : Nat) (hk : k ≤ retries)
    (hfail : ∀ i, i < k → attemptOk jv call i = false) :
    genAttempts jv call retries 0 = genAttempts jv call retries k := by
  induction k with
  | zero => rfl
  | succ n ih =>
    have h1 : genAttempts jv call retries 0 = genAttempts jv call retries n :=
      ih (Nat.le_of_succ_le hk) (fun i hi => hfail i (Nat.lt_trans hi (Nat.lt_succ_self n)))
    rw [h1]
    exact genAttempts_fail jv call retries n (Nat.lt_of_succ_le hk)
      (hfail n (Nat.lt_succ_self n))

/-- Claim C1: `generate_content_with_gemini` with a retry budget returns the
raw text of the first attempt whose response is a non-empty payload accepted
by the JSON validity check, having made exactly that many calls; attempts
that return an empty payload, raise, or fail JSON validation are consumed
and retried; and when every one of the `retries` attempts fails it returns
`None` after exactly `retries` attempts.  The model is a total function, so
no exception escapes. -/
theorem C1_generate_with_retries_contract (jv : String → Bool)
    (call : Nat → CallResult) (retries : Nat) :
    (∀ k t, k < retries → (∀ i, i < k → attemptOk jv call i = false) →
      call k = .returns (some t) → t ≠ "" → jv t = true →
      generate_content_with_gemini jv call retries = (some t, k + 1)) ∧
    ((∀ i, i < retries → attemptOk jv call i = false) →
      generate_content_with_gemini jv call retries = (none, retries)) := by
  constructor
  · intro k t hk hfail hcall ht hjv
    unfold generate_content_with_gemini
    rw [genAttempts_skip jv call retries k (Nat.le_of_lt hk) hfail]
    exact genAttempts_success jv call retries k t hk hcall ht hjv
  · intro hfail
    unfold generate_content_with_gemini
    rw [genAttempts_skip jv call retries retries (Nat.le_refl retries) hfail]
    exact genAttempts_exit jv call retries retries (Nat.le_refl retries)

/-- Witness for C1, on the spec's own stub: invalid JSON on attempts 1-2 and
valid JSON on attempt 3 yields the attempt-3 payload after 3 calls; a stub
that always returns invalid JSON yields `None` after exactly 3 calls. -/
theorem C1_generate_with_retries_contract_witness :
    generate_content_with_gemini (fun s => s == "\x7b\x7d")
      (fun i => if i < 2 then CallResult.returns (some "oops")
                else CallResult.returns (some "\x7b\x7d")) 3 = (some "\x7b\x7d", 3) ∧
    generate_content_with_gemini (fun s => s == "\x7b\x7d")
      (fun _ => CallResult.returns (some "oops")) 3 = (none, 3) := by
  constructor
  · exact (C1_generate_with_retries_contract _ _ 3).1 2 "\x7b\x7d" (by decide)
      (by decide) (by decide) (by decide) (by decide)
  · exact (C1_generate_with_retries_contract _ _ 3).2 (by decide)

/-! ## Properties of the fence search -/

theorem isPrefixCIb_self_append : ∀ (p t : List Char), isPrefixCIb p (p ++ t) = true
  | [], _ => rfl
  | c :: ps, t => by
    simp only [List.cons_append, isPrefixCIb, ciEq, beq_self_eq_true, Bool.true_and]
    exact isPrefixCIb_self_append ps t

theorem isPrefixOf_self_append : ∀ (p t : List Char), List.isPrefixOf p (p ++ t) = true
  | [], _ => by simp [List.isPrefixOf]
  | c :: ps, t => by
    simp only [List.cons_append, List.isPrefixOf, beq_self_eq_true, Bool.true_and]
    exact isPrefixOf_self_append ps t

theorem findSubCI_of_prefix (pat text : List Char) (hp : isPrefixCIb pat text = true) :
    findSubCI pat text = some 0 := by
  cases text <;> simp [findSubCI, hp]

theorem findSubEx_of_prefix (pat text : List Char) (hp : List.isPrefixOf pat text = true) :
    findSubEx pat text = some 0 := by
  cases text <;> simp [findSubEx, hp]

theorem findSubCI_append (p0 : Char) (ps pre rest : List Char)
    (hpre : ∀ c ∈ pre, ciEq p0 c = false)
    (hrest : isPrefixCIb (p0 :: ps) rest = true) :
    findSubCI (p0 :: ps) (pre ++ rest) = some pre.length := by
  induction pre with
  | nil => simpa using findSubCI_of_prefix (p0 :: ps) rest hrest
  | cons c cs ih =>
    have hcons : isPrefixCIb (p0 :: ps) (c :: (cs ++ rest)) = false := by
      simp [isPrefixCIb, hpre c (List.mem_cons_self c cs)]
    simp [findSubCI, hcons, ih (fun c hc => hpre c (List.mem_cons_of_mem _ hc))]

theorem findSubEx_append (p0 : Char) (ps pre rest : List Char)
    (hpre : ∀ c ∈ pre, (p0 == c) = false)
    (hrest : List.isPrefixOf (p0 :: ps) rest = true) :
    findSubEx (p0 :: ps) (pre ++ rest) = some pre.length := by
  induction pre with
  | nil => simpa using findSubEx_of_prefix (p0 :: ps) rest hrest
  | cons c cs ih =>
    have hcons : List.isPrefixOf (p0 :: ps) (c :: (cs ++ rest)) = false := by
      simp [List.isPrefixOf, hpre c (List.mem_cons_self c cs)]
    simp [findSubEx, hcons, ih (fun c hc => hpre c (List.mem_cons_of_mem _ hc))]

/-- Claim C3 counterexample: on the empty input string,
`extract_json_from_gemini_response` returns `None` (the `if not text` guard),
not the entire input trimmed (which would be the empty string). -/
theorem C3_empty_input_cex :
    extract_json_from_gemini_response "" = none ∧
    (none : Option String) ≠ some "" := by
  constructor
  · rfl
  · decide

/-- Claim C3 (amended): for every NON-EMPTY input string the function behaves
as claimed — when the input contains a fenced block explicitly labeled as
JSON (a case-insensitive 7-character opener with a backtick-free prefix
before it, and a later closer), it returns the fenced content trimmed of
surrounding whitespace; when the input contains no such label at all, it
returns the entire input trimmed; the EMPTY input, however, yields `None`
rather than the empty string. -/
theorem C3_extract_fragment_amended :
    (∀ pre inner post : String,
      (∀ c ∈ pre.data, ciEq '`' c = false) → ('`' ∉ inner.data) →
      extract_json_from_gemini_response (pre ++ "```json" ++ inner ++ "```" ++ post) =
        some (pyStrip inner)) ∧
    (∀ s : String, s ≠ "" → findSubCI "```json".data s.data = none →
      extract_json_from_gemini_response s = some (pyStrip s)) ∧
    extract_json_from_gemini_response "" = none := by
  refine ⟨?_, ?_, rfl⟩
  · intro pre inner post hpre hinner
    set text := pre ++ "```json" ++ inner ++ "```" ++ post with htext
    have hdata : text.data =
        pre.data ++ ("```json".data ++ (inner.data ++ ("```".data ++ post.data))) := by
      simp [htext, String.data_append]
    have hne : text ≠ "" := by
      intro hcontra
      have : text.data = [] := by rw [hcontra]
      rw [hdata] at this
      simp at this
    have hfind1 : findSubCI "```json".data text.data = some pre.data.length := by
      rw [hdata]
      exact findSubCI_append '`' ['`', '`', 'j', 's', 'o', 'n'] pre.data _ hpre
        (isPrefixCIb_self_append "```json".data _)
    have hdrop : text.data.drop (pre.data.length + 7) =
        inner.data ++ ("```".data ++ post.data) := by
      rw [hdata]
      rw [show pre.data ++ ("```json".data ++ (inner.data ++ ("```".data ++ post.data))) =
        (pre.data ++ "```json".data) ++ (inner.data ++ ("```".data ++ post.data)) by
          simp [List.append_assoc]]
      rw [show pre.data.length + 7 = (pre.data ++ "```json".data).length by
        simp [List.length_append]]
      exact List.drop_left _ _
    have hpre2 : ∀ c ∈ inner.data, ('`' == c) = false := by
      intro c hc
      rw [beq_eq_false_iff_ne]
      intro hh
      subst hh
      exact hinner hc
    have hfind2 : findSubEx "```".data (inner.data ++ ("```".data ++ post.data)) =
        some inner.data.length := by
      exact findSubEx_append '`' ['`', '`'] inner.data _ hpre2
        (isPrefixOf_self_append "```".data _)
    have htake : (inner.data ++ ("```".data ++ post.data)).take inner.data.length =
        inner.data := List.take_left _ _
    unfold extract_json_from_gemini_response
    rw [if_neg hne]
    simp only [hfind1, hdrop, hfind2, htake]
    rfl
  · intro s hs hnone
    unfold extract_json_from_gemini_response
    rw [if_neg hs]
    simp only [hnone]

/-- Witness for C3: the spec's round-trip vectors.  The fenced input yields
the fenced content trimmed, and a fence-free input is returned unchanged. -/
theorem C3_extract_fragment_witness :
    extract_json_from_gemini_response "```json\n\x7b\"a\":1\x7d\n```" =
      some "\x7b\"a\":1\x7d" ∧
    extract_json_from_gemini_response "\x7b\"a\":1\x7d" = some "\x7b\"a\":1\x7d" := by
  constructor
  · have h := C3_extract_fragment_amended.1 "" "\n\x7b\"a\":1\x7d\n" ""
      (by intro c hc; simp at hc) (by decide)
    have heq : ("" : String) ++ "```json" ++ "\n\x7b\"a\":1\x7d\n" ++ "```" ++ "" =
        "```json\n\x7b\"a\":1\x7d\n```" := by decide
    rw [heq] at h
    rw [h]
    decide
  · have h := C3_extract_fragment_amended.2.1 "\x7b\"a\":1\x7d" (by decide) (by decide)
    rw [h]
    decide

/-! ## Properties of the PDF page loop -/

/-- Text contributed by a page when it does not abort the loop
(`page.extract_text() or ""`). -/
def pageYield : PageResult → String
  | .yields s => s
  | .noText => ""
  | .raises => ""

/-- Whether a page outcome raises (aborting the page loop). -/
def pageAborts : PageResult → Bool
  | .raises => true
  | _ => false

theorem pdfPagesLoop_acc : ∀ (ps : List PageResult) (acc : String),
    pdfPagesLoop ps acc = acc ++ pdfPagesLoop ps ""
  | [], acc => by simp [pdfPagesLoop]
  | .yields s :: ps, acc => by
    simp only [pdfPagesLoop]
    rw [pdfPagesLoop_acc ps (acc ++ s), pdfPagesLoop_acc ps ("" ++ s)]
    simp [String.append_assoc]
  | .noText :: ps, acc => by
    simp only [pdfPagesLoop]
    rw [pdfPagesLoop_acc ps (acc ++ ""), pdfPagesLoop_acc ps ("" ++ "")]
    simp
  | .raises :: ps, acc => by simp [pdfPagesLoop]

theorem pdfPagesLoop_concat : ∀ ps : List PageResult,
    pdfPagesLoop ps "" =
      concatStrings ((ps.takeWhile (fun p => !pageAborts p)).map pageYield)
  | [] => rfl
  | .yields s :: ps => by
    show pdfPagesLoop ps ("" ++ s) =
      s ++ concatStrings ((ps.takeWhile (fun p => !pageAborts p)).map pageYield)
    rw [pdfPagesLoop_acc ps ("" ++ s), pdfPagesLoop_concat ps]
    simp
  | .noText :: ps => by
    show pdfPagesLoop ps ("" ++ "") =
      "" ++ concatStrings ((ps.takeWhile (fun p => !pageAborts p)).map pageYield)
    rw [pdfPagesLoop_acc ps ("" ++ ""), pdfPagesLoop_concat ps]
    simp
  | .raises :: ps => rfl

/-- Modelled from the spec: the claim's reading of PDF extraction, in which a
page that fails to yield text contributes the empty string and extraction
CONTINUES with the remaining pages — the result being the trimmed
concatenation over all pages.  Stated for comparison with the embedded
source function `extract_text_from_pdf`. -/
def specClaimedPdfExtraction (doc : Option (List PageResult)) : String :=
  match doc with
  | none => ""
  | some pages => pyStrip (concatStrings (pages.map pageYield))

/-- Claim C2 counterexample: with a first page yielding "a", a second page
raising, and a third page yielding "b", the source returns "a" — the raising
page does NOT contribute empty-and-continue (that would give "ab"), nor does
the internal failure make the result the empty string. -/
theorem C2_pdf_raising_page_cex :
    extract_text_from_pdf (some [.yields "a", .raises, .yields "b"]) = "a" ∧
    specClaimedPdfExtraction (some [.yields "a", .raises, .yields "b"]) = "ab" ∧
    ("a" : String) ≠ "ab" ∧ ("a" : String) ≠ "" := by
  refine ⟨rfl, rfl, by decide, by decide⟩

/-- Claim C2 (amended): PDF extraction never raises (the model is total) and
returns the trimmed concatenation of the per-page texts of the pages BEFORE
the first raising page — so a page returning no text contributes empty and
extraction continues, but a page that raises aborts the loop, keeping only
the text accumulated so far; when no page raises the result is the trimmed
concatenation over all pages; and when the reader itself fails the result is
the empty string. -/
theorem C2_pdf_extraction_amended :
    (∀ pages : List PageResult,
      extract_text_from_pdf (some pages) =
        pyStrip (concatStrings ((pages.takeWhile (fun p => !pageAborts p)).map pageYield))) ∧
    extract_text_from_pdf none = "" ∧
    (∀ pages : List PageResult, (∀ p ∈ pages, pageAborts p = false) →
      extract_text_from_pdf (some pages) = pyStrip (concatStrings (pages.map pageYield))) := by
  refine ⟨?_, rfl, ?_⟩
  · intro pages
    show pyStrip (pdfPagesLoop pages "") = _
    rw [pdfPagesLoop_concat pages]
  · intro pages hp
    have hself : pages.takeWhile (fun p => !pageAborts p) = pages := by
      induction pages with
      | nil => rfl
      | cons q qs ih =>
        simp only [List.takeWhile, hp q (List.mem_cons_self q qs), Bool.not_false]
        rw [ih (fun p hmem => hp p (List.mem_cons_of_mem q hmem))]
    show pyStrip (pdfPagesLoop pages "") = _
    rw [pdfPagesLoop_concat pages, hself]

/-- Witness for C2: a document whose pages all yield (one of them blank)
extracts to the trimmed concatenation of the page texts. -/
theorem C2_pdf_extraction_witness :
    (∀ p ∈ [PageResult.yields " hi ", PageResult.noText, PageResult.yields "there"],
      pageAborts p = false) ∧
    extract_text_from_pdf
      (some [PageResult.yields " hi ", PageResult.noText, PageResult.yields "there"]) =
      "hi there" := by
  refine ⟨by decide, ?_⟩
  have h := C2_pdf_extraction_amended.2.2
    [PageResult.yields " hi ", PageResult.noText, PageResult.yields "there"] (by decide)
  rw [h]
  decide

/-- Claim C7 counterexample: the session-creation dict literal does not
initialize the `interview_assessment` field at all — the key is absent from
the freshly allocated record, rather than present with a null value. -/
theorem C7_assessment_key_absent_cex :
    List.lookup "interview_assessment" newSessionDict = none ∧
    (none : Option InitVal) ≠ some InitVal.pyNone := by
  exact ⟨rfl, by decide⟩

/-- Claim C7 (amended): `get_or_create_session` returns the existing record
when one exists, and otherwise allocates, exactly once per identifier, a new
record whose five initialized fields are at their empty/null defaults
(profile null, questions and responses empty, start and end times null) and
which contains NO `interview_assessment` entry (the key is only added when
an assessment is stored); a second call with the same identifier returns the
same record without modifying the store, so the record is retained. -/
theorem C7_get_or_create_amended :
    (∀ (store : Store) (sid : String) (s : Session),
      List.lookup sid store = some s → get_or_create_session sid store = (s, store)) ∧
    (∀ (store : Store) (sid : String),
      List.lookup sid store = none →
      get_or_create_session sid store = (defaultSession, dictSet store sid defaultSession) ∧
      List.lookup sid (dictSet store sid defaultSession) = some defaultSession) ∧
    (defaultSession.candidate_profile = none ∧
     defaultSession.interview_questions = [] ∧
     defaultSession.interview_responses = [] ∧
     defaultSession.interview_start_time = none ∧
     defaultSession.interview_end_time = none ∧
     List.lookup "interview_assessment" newSessionDict = none) ∧
    (∀ (store : Store) (sid : String),
      get_or_create_session sid (get_or_create_session sid store).2 =
        get_or_create_session sid store) := by
  refine ⟨?_, ?_, ⟨rfl, rfl, rfl, rfl, rfl, rfl⟩, ?_⟩
  · intro store sid s h
    unfold get_or_create_session
    rw [h]
  · intro store sid h
    unfold get_or_create_session
    rw [h]
    exact ⟨rfl, lookup_dictSet_self store sid defaultSession⟩
  · intro store sid
    unfold get_or_create_session
    cases h : List.lookup sid store with
    | some s => simp [h]
    | none => simp [h, lookup_dictSet_self store sid defaultSession]

/-- Witness for C7: on an empty store, a lookup-miss allocates the default
record and retains it. -/
theorem C7_get_or_create_witness :
    get_or_create_session "s1" [] = (defaultSession, [("s1", defaultSession)]) ∧
    get_or_create_session "s1" [("s1", defaultSession)] =
      (defaultSession, [("s1", defaultSession)]) := by
  constructor
  · exact (C7_get_or_create_amended.2.1 [] "s1" (by rfl)).1
  · exact C7_get_or_create_amended.1 [("s1", defaultSession)] "s1" defaultSession (by rfl)

/-- Claim C8: submitting an answer for a valid session with non-empty
question id and response text, where the id matches no entry of the
session's question list, fails with 404 "Question not found", leaves the
whole store (hence the session's `interview_responses`) unchanged, and
performs no AI call — for every AI oracle and duration. -/
theorem C8_unknown_question_404 (store : Store) (sid : String) (session : Session)
    (qid rtext : String) (dur : Option String) (ai : AiParsed PyDict)
    (hsid : sid ≠ "") (hlk : List.lookup sid store = some session)
    (hqid : qid ≠ "") (hrt : rtext ≠ "")
    (habs : ∀ q ∈ session.interview_questions, questionMatches qid q = false) :
    submit_answer store (some sid) (some qid) (some rtext) dur ai =
      (store, .resp 404 (some "Question not found"), 0) := by
  have hfind : session.interview_questions.find? (questionMatches qid) = none :=
    List.find?_eq_none.mpr (fun q hq => by rw [habs q hq]; exact Bool.false_ne_true)
  simp only [submit_answer, hlk, hfind, if_neg hsid]
  rw [if_neg (by simp [hqid, hrt])]

/-- Witness for C8: a session holding one question with id "q1" rejects an
answer submitted for id "q2". -/
theorem C8_unknown_question_404_witness :
    submit_answer
      [("s1", { defaultSession with
                  interview_questions := [[("id", JVal.jstr "q1")]] })]
      (some "s1") (some "q2") (some "my answer") none AiParsed.fail =
      ([("s1", { defaultSession with
                  interview_questions := [[("id", JVal.jstr "q1")]] })],
       .resp 404 (some "Question not found"), 0) := by
  exact C8_unknown_question_404 _ "s1" _ "q2" "my answer" none AiParsed.fail
    (by decide) rfl (by decide) (by decide) (by decide)

/-- Claim C10: with a valid session, a non-null (non-empty) candidate
profile and a supplied role, `setup_interview` writes
`candidate_profile.position` into the stored profile BEFORE the AI call, so
when the AI invocation fails the handler returns a 500 while the position
mutation persists in the store and `interview_questions`,
`interview_responses` and `interview_start_time` keep their previous values
(the operation is not atomic on error); exactly one AI call is made.
The non-emptiness hypothesis on the profile matches the source's truthiness
test; a stored profile is never the empty dict, since resume intake always
materializes a `key_skills` entry. -/
theorem C10_setup_position_mutation_persists (store : Store) (sid : String)
    (session : Session) (profile : PyDict) (role : String) (now : String)
    (hsid : sid ≠ "") (hlk : List.lookup sid store = some session)
    (hp : session.candidate_profile = some profile) (hpe : profile ≠ [])
    (hr : role ≠ "") :
    setup_interview store (some sid) (some role) AiParsed.fail now =
      (dictSet store sid
        { session with candidate_profile := some (dictSet profile "position" (JVal.jstr role)) },
       .resp 500 (some "AI failed to generate questions."), 1) ∧
    List.lookup sid
      (dictSet store sid
        { session with candidate_profile := some (dictSet profile "position" (JVal.jstr role)) }) =
      some { session with candidate_profile := some (dictSet profile "position" (JVal.jstr role)) } ∧
    List.lookup "position" (dictSet profile "position" (JVal.jstr role)) =
      some (JVal.jstr role) ∧
    ({ session with candidate_profile := some (dictSet profile "position" (JVal.jstr role)) }.interview_questions
      = session.interview_questions ∧
     { session with candidate_profile := some (dictSet profile "position" (JVal.jstr role)) }.interview_responses
      = session.interview_responses ∧
     { session with candidate_profile := some (dictSet profile "position" (JVal.jstr role)) }.interview_start_time
      = session.interview_start_time) := by
  refine ⟨?_, lookup_dictSet_self _ _ _, lookup_dictSet_self _ _ _, rfl, rfl, rfl⟩
  simp only [setup_interview, hlk, hp, if_neg hsid]
  rw [if_neg (by simp [hr, hpe])]

/-- Witness for C10: a concrete session whose profile gains the supplied
position when the question-generation AI call fails with a 500. -/
theorem C10_setup_position_mutation_witness :
    setup_interview [("s1", { defaultSession with candidate_profile := some [("name", JVal.jstr "Ada")] })]
      (some "s1") (some "Backend Engineer") AiParsed.fail "t0" =
      ([("s1", { defaultSession with
          candidate_profile := some [("name", JVal.jstr "Ada"), ("position", JVal.jstr "Backend Engineer")] })],
       .resp 500 (some "AI failed to generate questions."), 1) := by
  have h := (C10_setup_position_mutation_persists
    [("s1", { defaultSession with candidate_profile := some [("name", JVal.jstr "Ada")] })]
    "s1" _ [("name", JVal.jstr "Ada")] "Backend Engineer" "t0"
    (by decide) rfl rfl (by decide) (by decide)).1
  rw [h]
  rfl

/-! ## Store shape of `upload_resume` -/

theorem lookup_gocs (sid : String) (st : Store) :
    (List.lookup sid (get_or_create_session sid st).2).isSome = true := by
  unfold get_or_create_session
  cases h : List.lookup sid st with
  | some s => simp [h]
  | none => simp [h, lookup_dictSet_self]

theorem upload_resume_store_shape (store : Store) (hdr : Option String) (gen : String)
    (resume : Option UploadedFile) (docxA : Bool) (ai : AiParsed PyDict) :
    (upload_resume store hdr gen resume docxA ai).1 =
      (get_or_create_session (hdr.getD gen) store).2 ∨
    ∃ x, (upload_resume store hdr gen resume docxA ai).1 =
      dictSet (get_or_create_session (hdr.getD gen) store).2 (hdr.getD gen) x := by
  unfold upload_resume
  repeat' split
  all_goals first
    | (left; rfl)
    | (right; exact ⟨_, rfl⟩)

theorem upload_resume_err_store (store : Store) (hdr : Option String) (gen : String)
    (resume : Option UploadedFile) (docxA : Bool) (ai : AiParsed PyDict)
    (hnone : List.lookup (hdr.getD gen) store = none)
    (hst : (upload_resume store hdr gen resume docxA ai).2.1.status ≠ 200) :
    (upload_resume store hdr gen resume docxA ai).1 =
      dictSet store (hdr.getD gen) defaultSession := by
  revert hst
  unfold upload_resume
  simp only [get_or_create_session, hnone]
  repeat' split
  all_goals intro hst
  all_goals first
    | rfl
    | (exfalso; exact hst rfl)

/-- Claim C9 counterexample: with the empty string supplied as the session
identifier, `upload_resume` does create the session record (under the key
""), but a later `setup_interview` with that identifier does NOT pass the
session-existence check: the `not session_id` truthiness test rejects it
with "Invalid or missing session ID" instead of failing on the missing
candidate profile. -/
theorem C9_empty_sid_cex :
    upload_resume [] (some "") "generated" none true AiParsed.fail =
      ([("", defaultSession)], .resp 400 (some "No resume file provided"), 0) ∧
    (List.lookup "" [("", defaultSession)]).isSome = true ∧
    setup_interview [("", defaultSession)] (some "") (some "Backend Engineer")
      (AiParsed.ok []) "t0" =
      ([("", defaultSession)], .resp 400 (some "Invalid or missing session ID"), 0) ∧
    "Invalid or missing session ID" ≠ "Position role and candidate profile are required" := by
  refine ⟨rfl, rfl, rfl, by decide⟩

/-- Claim C9 (amended): after every `upload_resume` call the session record
for the effective identifier exists in the store, even when the request
fails (the session is created before any validation); and for a NON-EMPTY
fresh identifier, when the upload did not succeed, a later `setup_interview`
with that identifier passes the session-existence check and fails instead on
the missing candidate profile.  (For the empty-string identifier the record
also exists, but `setup_interview` rejects the identifier itself, see the
counterexample.) -/
theorem C9_session_precreated_amended :
    (∀ (store : Store) (hdr : Option String) (gen : String)
       (resume : Option UploadedFile) (docxA : Bool) (ai : AiParsed PyDict),
      (List.lookup (hdr.getD gen)
        (upload_resume store hdr gen resume docxA ai).1).isSome = true) ∧
    (∀ (store : Store) (hdr : Option String) (gen : String)
       (resume : Option UploadedFile) (docxA : Bool) (ai : AiParsed PyDict)
       (role : Option String) (ai₂ : AiParsed (List PyDict)) (now : String),
      hdr.getD gen ≠ "" → List.lookup (hdr.getD gen) store = none →
      (upload_resume store hdr gen resume docxA ai).2.1.status ≠ 200 →
      setup_interview (upload_resume store hdr gen resume docxA ai).1
          (some (hdr.getD gen)) role ai₂ now =
        ((upload_resume store hdr gen resume docxA ai).1,
         .resp 400 (some "Position role and candidate profile are required"), 0)) := by
  constructor
  · intro store hdr gen resume docxA ai
    rcases upload_resume_store_shape store hdr gen resume docxA ai with h | ⟨x, h⟩
    · rw [h]; exact lookup_gocs _ _
    · rw [h, lookup_dictSet_self]; rfl
  · intro store hdr gen resume docxA ai role ai₂ now hsid hnone hst
    have hstore := upload_resume_err_store store hdr gen resume docxA ai hnone hst
    rw [hstore]
    have hlk : List.lookup (hdr.getD gen) (dictSet store (hdr.getD gen) defaultSession) =
        some defaultSession := lookup_dictSet_self _ _ _
    simp only [setup_interview, hlk, if_neg hsid]
    cases role with
    | none => rfl
    | some r => rfl

/-- Witness for C9: a failed upload (no file) on a fresh identifier leaves
the session in the store and a later setup fails on the missing profile. -/
theorem C9_session_precreated_witness :
    (List.lookup "sess"
      (upload_resume [] (some "sess") "g" none true AiParsed.fail).1).isSome = true ∧
    setup_interview (upload_resume [] (some "sess") "g" none true AiParsed.fail).1
        (some "sess") (some "Backend Engineer") (AiParsed.ok []) "t0" =
      ((upload_resume [] (some "sess") "g" none true AiParsed.fail).1,
       .resp 400 (some "Position role and candidate profile are required"), 0) := by
  constructor
  · exact C9_session_precreated_amended.1 [] (some "sess") "g" none true AiParsed.fail
  · exact C9_session_precreated_amended.2 [] (some "sess") "g" none true AiParsed.fail
      (some "Backend Engineer") (AiParsed.ok []) "t0" (by decide) rfl (by decide)

/-! ## The derived score is the nearest integer to the mean -/

theorem round_third_nearest (S s : Int) (hs : s = round ((S : ℚ) / 3)) :
    ∀ m : Int, |3 * s - S| ≤ |3 * m - S| := by
  intro m
  set x : ℚ := (S : ℚ) / 3 with hx
  have h3x : (3 : ℚ) * x = (S : ℚ) := by
    rw [hx]; field_simp
  have h1 : |(s : ℚ) - x| ≤ 1 / 2 := by
    rw [hs, abs_sub_comm]; exact abs_sub_round x
  have h2 : |(s : ℚ) - x| ≤ |(m : ℚ) - x| := by
    by_cases hm : m = s
    · subst hm; exact le_refl _
    · have hne : (m - s : Int) ≠ 0 := sub_ne_zero.mpr hm
      have hms : (1 : ℚ) ≤ |(m : ℚ) - (s : ℚ)| := by
        have hint : (1 : Int) ≤ |m - s| := Int.one_le_abs hne
        have hcast : ((1 : Int) : ℚ) ≤ ((|m - s| : Int) : ℚ) := by exact_mod_cast hint
        push_cast at hcast
        linarith [hcast]
      have hchain : |(m : ℚ) - (s : ℚ)| ≤ |(m : ℚ) - x| + |(s : ℚ) - x| := by
        calc |(m : ℚ) - (s : ℚ)| = |((m : ℚ) - x) + (x - (s : ℚ))| := by
              rw [sub_add_sub_cancel]
        _ ≤ |(m : ℚ) - x| + |x - (s : ℚ)| := abs_add _ _
        _ = |(m : ℚ) - x| + |(s : ℚ) - x| := by rw [abs_sub_comm x ((s : ℚ))]
      linarith
  have hq : |3 * (s : ℚ) - (S : ℚ)| ≤ |3 * (m : ℚ) - (S : ℚ)| := by
    have hs3 : 3 * (s : ℚ) - (S : ℚ) = 3 * ((s : ℚ) - x) := by rw [← h3x]; ring
    have hm3 : 3 * (m : ℚ) - (S : ℚ) = 3 * ((m : ℚ) - x) := by rw [← h3x]; ring
    rw [hs3, hm3, abs_mul, abs_mul]
    have h30 : |(3 : ℚ)| = 3 := by norm_num
    rw [h30]
    linarith
  have hgoal : ((|3 * s - S| : Int) : ℚ) ≤ ((|3 * m - S| : Int) : ℚ) := by
    push_cast
    exact hq
  exact_mod_cast hgoal

/-- Claim C5: on a successful answer submission, the score stored in the
evaluation is the integer `s` obtained by rounding the unweighted mean of
the three sub-scores (missing sub-scores read as 0 through
`evaluation.get(key, 0)`, embodied in `subScore`) to the nearest integer —
`s` minimizes the distance `|3 m - (t + c + r)|` over all integers `m`, and
the mean of three integers is never a half-integer, so the nearest integer
is unique. -/
theorem C5_score_is_rounded_mean (store : Store) (sid : String) (session : Session)
    (qid rtext : String) (dur : Option String) (evaluation question_obj : PyDict)
    (t c r s : Int)
    (hsid : sid ≠ "") (hlk : List.lookup sid store = some session)
    (hqid : qid ≠ "") (hrt : rtext ≠ "")
    (hfind : session.interview_questions.find? (questionMatches qid) = some question_obj)
    (ht : subScore evaluation "technicalScore" = some t)
    (hc : subScore evaluation "communicationScore" = some c)
    (hr : subScore evaluation "relevanceScore" = some r)
    (hs : s = round (((t : ℚ) + (c : ℚ) + (r : ℚ)) / 3)) :
    submit_answer store (some sid) (some qid) (some rtext) dur (.ok evaluation) =
      (dictSet store sid { session with interview_responses := session.interview_responses ++
        [{ question_id := qid
           question := List.lookup "question" question_obj
           tags := (List.lookup "tags" question_obj).getD (.jarr [])
           response := rtext
           duration := dur
           evaluation := dictSet evaluation "score" (.jnum s) }] },
       .resp 200 none, 1) ∧
    List.lookup "score" (dictSet evaluation "score" (.jnum s)) = some (.jnum s) ∧
    (∀ m : Int, |3 * s - (t + c + r)| ≤ |3 * m - (t + c + r)|) := by
  refine ⟨?_, lookup_dictSet_self _ _ _, ?_⟩
  · simp only [submit_answer, hlk, hfind, ht, hc, hr, if_neg hsid]
    rw [if_neg (by simp [hqid, hrt]), hs]
  · refine round_third_nearest (t + c + r) s ?_
    rw [hs]
    congr 1
    push_cast
    ring

/-- Witness for C5: the spec's vector — sub-scores 80, 70, 90 yield the
stored score 80, which is the nearest integer to their mean. -/
theorem C5_score_witness :
    submit_answer
      [("s1", { defaultSession with interview_questions :=
          [[("id", JVal.jstr "q1"), ("question", JVal.jstr "Describe a REST API."),
            ("tags", JVal.jarr [JVal.jstr "technical"])]] })]
      (some "s1") (some "q1") (some "an answer") (some "1:30")
      (.ok [("technicalScore", JVal.jnum 80), ("communicationScore", JVal.jnum 70),
            ("relevanceScore", JVal.jnum 90), ("feedback", JVal.jstr "good")]) =
      ([("s1", { defaultSession with
          interview_questions :=
            [[("id", JVal.jstr "q1"), ("question", JVal.jstr "Describe a REST API."),
              ("tags", JVal.jarr [JVal.jstr "technical"])]]
          interview_responses :=
            [{ question_id := "q1"
               question := some (JVal.jstr "Describe a REST API.")
               tags := JVal.jarr [JVal.jstr "technical"]
               response := "an answer"
               duration := some "1:30"
               evaluation := [("technicalScore", JVal.jnum 80), ("communicationScore", JVal.jnum 70),
                              ("relevanceScore", JVal.jnum 90), ("feedback", JVal.jstr "good"),
                              ("score", JVal.jnum 80)] }] })],
       .resp 200 none, 1) ∧
    (∀ m : Int, |3 * 80 - (80 + 70 + 90)| ≤ |3 * m - (80 + 70 + 90)|) := by
  have h := C5_score_is_rounded_mean
    [("s1", { defaultSession with interview_questions :=
        [[("id", JVal.jstr "q1"), ("question", JVal.jstr "Describe a REST API."),
          ("tags", JVal.jarr [JVal.jstr "technical"])]] })]
    "s1" _ "q1" "an answer" (some "1:30")
    [("technicalScore", JVal.jnum 80), ("communicationScore", JVal.jnum 70),
     ("relevanceScore", JVal.jnum 90), ("feedback", JVal.jstr "good")]
    [("id", JVal.jstr "q1"), ("question", JVal.jstr "Describe a REST API."),
     ("tags", JVal.jarr [JVal.jstr "technical"])]
    80 70 90 80
    (by decide) rfl (by decide) (by decide) rfl rfl rfl rfl
    (by
      have hmean : (((80 : Int) : ℚ) + ((70 : Int) : ℚ) + ((90 : Int) : ℚ)) / 3 =
          ((80 : Int) : ℚ) := by
        push_cast
        norm_num
      rw [hmean, round_intCast])
  refine ⟨?_, h.2.2⟩
  rw [h.1]
  rfl

/-- Claim C4: on a successful resume intake the stored profile is the
AI-returned profile with `key_skills` normalized, and the normalized
`key_skills` value is always a JSON list: a string splits on commas into
trimmed non-empty items, a list is kept (and the whole profile is then left
untouched), and any other value — including a missing key — becomes the
empty list. -/
theorem C4_key_skills_normalized (store : Store) (hdr : Option String) (gen : String)
    (f : UploadedFile) (docxA : Bool) (profile : PyDict) (content : String)
    (hf : f.filename ≠ "")
    (hex : extract_text_smart f docxA = .ok content)
    (hc : content ≠ "") :
    upload_resume store hdr gen (some f) docxA (.ok profile) =
      (dictSet (get_or_create_session (hdr.getD gen) store).2 (hdr.getD gen)
        { (get_or_create_session (hdr.getD gen) store).1 with
          candidate_profile := some (normalizeProfileSkills profile) },
       .resp 200 none, 1) ∧
    (∃ xs : List JVal,
      List.lookup "key_skills" (normalizeProfileSkills profile) = some (.jarr xs) ∧
      (∀ str : String, List.lookup "key_skills" profile = some (.jstr str) →
        xs = (((pySplitChar ',' str.data).map (fun p => String.mk (stripChars p))).filter
          (fun p => p != "")).map JVal.jstr) ∧
      (∀ ys : List JVal, List.lookup "key_skills" profile = some (.jarr ys) →
        xs = ys ∧ normalizeProfileSkills profile = profile) ∧
      ((∀ str, List.lookup "key_skills" profile ≠ some (.jstr str)) →
       (∀ ys, List.lookup "key_skills" profile ≠ some (.jarr ys)) →
        xs = [])) := by
  constructor
  · simp only [upload_resume, hex, if_neg hf, if_neg hc]
  · cases hks : List.lookup "key_skills" profile with
    | none =>
      refine ⟨[], ?_, ?_, ?_, fun _ _ => rfl⟩
      · simp only [normalizeProfileSkills, hks]
        exact lookup_dictSet_self _ _ _
      · intro str hcontra
        cases hcontra
      · intro ys hcontra
        cases hcontra
    | some v =>
      cases v with
      | jstr str0 =>
        refine ⟨(((pySplitChar ',' str0.data).map (fun p => String.mk (stripChars p))).filter
          (fun p => p != "")).map JVal.jstr, ?_, ?_, ?_, ?_⟩
        · simp only [normalizeProfileSkills, hks]
          exact lookup_dictSet_self _ _ _
        · intro str h
          cases h
          rfl
        · intro ys h
          cases h
        · intro hstr _
          exact absurd rfl (hstr str0)
      | jarr ys0 =>
        refine ⟨ys0, ?_, ?_, ?_, ?_⟩
        · have hkeep : normalizeProfileSkills profile = profile := by
            simp only [normalizeProfileSkills, hks]
          rw [hkeep, hks]
        · intro str h
          cases h
        · intro ys h
          cases h
          exact ⟨rfl, by simp only [normalizeProfileSkills, hks]⟩
        · intro _ hys
          exact absurd rfl (hys ys0)
      | jnull =>
        refine ⟨[], ?_, ?_, ?_, fun _ _ => rfl⟩
        · simp only [normalizeProfileSkills, hks]
          exact lookup_dictSet_self _ _ _
        · intro str h; cases h
        · intro ys h; cases h
      | jbool b =>
        refine ⟨[], ?_, ?_, ?_, fun _ _ => rfl⟩
        · simp only [normalizeProfileSkills, hks]
          exact lookup_dictSet_self _ _ _
        · intro str h; cases h
        · intro ys h; cases h
      | jnum n =>
        refine ⟨[], ?_, ?_, ?_, fun _ _ => rfl⟩
        · simp only [normalizeProfileSkills, hks]
          exact lookup_dictSet_self _ _ _
        · intro str h; cases h
        · intro ys h; cases h
      | jobj fs =>
        refine ⟨[], ?_, ?_, ?_, fun _ _ => rfl⟩
        · simp only [normalizeProfileSkills, hks]
          exact lookup_dictSet_self _ _ _
        · intro str h; cases h
        · intro ys h; cases h

/-- Witness for C4: the spec's three vectors — `"Python, Go, Rust"` splits
into `["Python","Go","Rust"]` through the full intake pipeline, `["Python"]`
is kept unchanged, and `42` becomes the empty list. -/
theorem C4_key_skills_witness :
    upload_resume [] (some "s1") "g"
      (some { filename := "cv.pdf", pdfPages := some [.yields "resume text"], docxParas := none })
      true (.ok [("name", JVal.jstr "Ada"), ("key_skills", JVal.jstr "Python, Go, Rust")]) =
      ([("s1", { defaultSession with
                   candidate_profile :=
                     some [("name", JVal.jstr "Ada"),
                           ("key_skills",
                            JVal.jarr [JVal.jstr "Python", JVal.jstr "Go", JVal.jstr "Rust"])] })],
       .resp 200 none, 1) ∧
    normalizeProfileSkills [("key_skills", JVal.jarr [JVal.jstr "Python"])] =
      [("key_skills", JVal.jarr [JVal.jstr "Python"])] ∧
    normalizeProfileSkills [("key_skills", JVal.jnum 42)] = [("key_skills", JVal.jarr [])] := by
  refine ⟨?_, rfl, rfl⟩
  have h := (C4_key_skills_normalized [] (some "s1") "g"
    { filename := "cv.pdf", pdfPages := some [.yields "resume text"], docxParas := none }
    true [("name", JVal.jstr "Ada"), ("key_skills", JVal.jstr "Python, Go, Rust")]
    "resume text" (by decide) rfl (by decide)).1
  rw [h]
  rfl

/-- Claim C6: on a successful assessment generation for a session with a
non-empty response list (and well-formed evaluations, so the summary loop
does not crash), the stored assessment is the AI-returned object with its
`interviewDuration` overwritten by the orchestrator-computed value — each
response's duration parsed as minutes:seconds with malformed strings
contributing zero (`durContribution`), the total formatted as "Xm Ys" — and
every other field of the AI-returned assessment is unchanged. -/
theorem C6_assessment_duration_overwritten (store : Store) (sid : String)
    (session : Session) (assessment : PyDict) (now : String)
    (hsid : sid ≠ "") (hlk : List.lookup sid store = some session)
    (hne : session.interview_responses ≠ [])
    (hok : session.interview_responses.all summaryOk = true) :
    get_assessment store (some sid) (.ok assessment) now =
      (dictSet (dictSet store sid { session with interview_end_time := some now }) sid
        { session with
            interview_end_time := some now
            interview_assessment := some (dictSet assessment "interviewDuration"
              (.jstr (fmtDuration (totalDurationSeconds session.interview_responses)))) },
       .resp 200 none, 1) ∧
    List.lookup "interviewDuration"
      (dictSet assessment "interviewDuration"
        (.jstr (fmtDuration (totalDurationSeconds session.interview_responses)))) =
      some (.jstr (fmtDuration (totalDurationSeconds session.interview_responses))) ∧
    (∀ k, k ≠ "interviewDuration" →
      List.lookup k (dictSet assessment "interviewDuration"
        (.jstr (fmtDuration (totalDurationSeconds session.interview_responses)))) =
      List.lookup k assessment) := by
  refine ⟨?_, lookup_dictSet_self _ _ _, ?_⟩
  · simp only [get_assessment, hlk, if_neg hsid, if_neg hne]
    rw [if_neg (by simp [hok])]
  · intro k hk
    rw [lookup_dictSet, if_neg hk]

/-- Witness for C6: responses with durations "1:30", "0:45" and a malformed
"bad" total 135 seconds, stored as "2m 15s", discarding the AI's own
"99m 99s" while keeping its other fields. -/
theorem C6_assessment_duration_witness :
    get_assessment
      [("s1", { defaultSession with
          interview_responses :=
            [{ question_id := "q1", question := some (JVal.jstr "Q1"),
               tags := JVal.jarr [], response := "a1", duration := some "1:30",
               evaluation := [("technicalScore", JVal.jnum 80), ("communicationScore", JVal.jnum 70),
                              ("relevanceScore", JVal.jnum 90), ("feedback", JVal.jstr "f1")] },
             { question_id := "q2", question := some (JVal.jstr "Q2"),
               tags := JVal.jarr [], response := "a2", duration := some "0:45",
               evaluation := [("technicalScore", JVal.jnum 60), ("communicationScore", JVal.jnum 60),
                              ("relevanceScore", JVal.jnum 60), ("feedback", JVal.jstr "f2")] },
             { question_id := "q3", question := some (JVal.jstr "Q3"),
               tags := JVal.jarr [], response := "a3", duration := some "bad",
               evaluation := [("technicalScore", JVal.jnum 50), ("communicationScore", JVal.jnum 50),
                              ("relevanceScore", JVal.jnum 50), ("feedback", JVal.jstr "f3")] }] })]
      (some "s1")
      (.ok [("overallScore", JVal.jnum 75), ("interviewDuration", JVal.jstr "99m 99s")])
      "t-end" =
      ([("s1", { defaultSession with
          interview_responses :=
            [{ question_id := "q1", question := some (JVal.jstr "Q1"),
               tags := JVal.jarr [], response := "a1", duration := some "1:30",
               evaluation := [("technicalScore", JVal.jnum 80), ("communicationScore", JVal.jnum 70),
                              ("relevanceScore", JVal.jnum 90), ("feedback", JVal.jstr "f1")] },
             { question_id := "q2", question := some (JVal.jstr "Q2"),
               tags := JVal.jarr [], response := "a2", duration := some "0:45",
               evaluation := [("technicalScore", JVal.jnum 60), ("communicationScore", JVal.jnum 60),
                              ("relevanceScore", JVal.jnum 60), ("feedback", JVal.jstr "f2")] },
             { question_id := "q3", question := some (JVal.jstr "Q3"),
               tags := JVal.jarr [], response := "a3", duration := some "bad",
               evaluation := [("technicalScore", JVal.jnum 50), ("communicationScore", JVal.jnum 50),
                              ("relevanceScore", JVal.jnum 50), ("feedback", JVal.jstr "f3")] }]
          interview_end_time := some "t-end"
          interview_assessment :=
            some [("overallScore", JVal.jnum 75),
                  ("interviewDuration", JVal.jstr "2m 15s")] })],
       .resp 200 none, 1) ∧
    List.lookup "overallScore"
      [("overallScore", JVal.jnum 75), ("interviewDuration", JVal.jstr "2m 15s")] =
      List.lookup "overallScore"
        [("overallScore", JVal.jnum 75), ("interviewDuration", JVal.jstr "99m 99s")] := by
  constructor
  · have h := (C6_assessment_duration_overwritten
      [("s1", { defaultSession with
          interview_responses :=
            [{ question_id := "q1", question := some (JVal.jstr "Q1"),
               tags := JVal.jarr [], response := "a1", duration := some "1:30",
               evaluation := [("technicalScore", JVal.jnum 80), ("communicationScore", JVal.jnum 70),
                              ("relevanceScore", JVal.jnum 90), ("feedback", JVal.jstr "f1")] },
             { question_id := "q2", question := some (JVal.jstr "Q2"),
               tags := JVal.jarr [], response := "a2", duration := some "0:45",
               evaluation := [("technicalScore", JVal.jnum 60), ("communicationScore", JVal.jnum 60),
                              ("relevanceScore", JVal.jnum 60), ("feedback", JVal.jstr "f2")] },
             { question_id := "q3", question := some (JVal.jstr "Q3"),
               tags := JVal.jarr [], response := "a3", duration := some "bad",
               evaluation := [("technicalScore", JVal.jnum 50), ("communicationScore", JVal.jnum 50),
                              ("relevanceScore", JVal.jnum 50), ("feedback", JVal.jstr "f3")] }] })]
      "s1"
      ({ defaultSession with
          interview_responses :=
            [{ question_id := "q1", question := some (JVal.jstr "Q1"),
               tags := JVal.jarr [], response := "a1", duration := some "1:30",
               evaluation := [("technicalScore", JVal.jnum 80), ("communicationScore", JVal.jnum 70),
                              ("relevanceScore", JVal.jnum 90), ("feedback", JVal.jstr "f1")] },
             { question_id := "q2", question := some (JVal.jstr "Q2"),
               tags := JVal.jarr [], response := "a2", duration := some "0:45",
               evaluation := [("technicalScore", JVal.jnum 60), ("communicationScore", JVal.jnum 60),
                              ("relevanceScore", JVal.jnum 60), ("feedback", JVal.jstr "f2")] },
             { question_id := "q3", question := some (JVal.jstr "Q3"),
               tags := JVal.jarr [], response := "a3", duration := some "bad",
               evaluation := [("technicalScore", JVal.jnum 50), ("communicationScore", JVal.jnum 50),
                              ("relevanceScore", JVal.jnum 50), ("feedback", JVal.jstr "f3")] }] })
      [("overallScore", JVal.jnum 75), ("interviewDuration", JVal.jstr "99m 99s")]
      "t-end" (by decide) rfl (by decide) (by decide)).1
    rw [h]
    rfl
  · rfl
